import Mathlib

/-!
Verification of the pixelmon overworld / encounter core (src/main.py).

The Python source is shallowly embedded: pygame rectangles become integer
left/top coordinates plus a width and height, Python floats become exact
rationals, the global random generator becomes explicit roll parameters,
and object mutation becomes explicit state passing.  Each definition below
names the source construct it embeds.
-/

namespace Pixelmon

/-- Truncation toward zero on rationals, the behaviour of Python `int(x)`
applied to a float. -/
def truncQ (q : ℚ) : ℤ := if 0 ≤ q then ⌊q⌋ else ⌈q⌉

-- ------------------------------------------------------------------
-- Camera (src/main.py, class Camera)
-- ------------------------------------------------------------------

/-- The camera of `main.py`: world size, viewport size and origin, all in
pixels.  Pygame rectangle coordinates are machine integers. -/
structure Camera where
  w_px : ℤ
  h_px : ℤ
  vw : ℤ
  vh : ℤ
  x : ℤ
  y : ℤ
deriving DecidableEq, Repr

/-- `Camera.center_on` (main.py lines 163-167): origin is set to center the
viewport on the focus rectangle center `(cx, cy)` and then clamped with
`max(0, min(origin, world - viewport))` on each axis.  Python `//` is floor
division, hence `Int.fdiv`. -/
def Camera.center_on (c : Camera) (cx cy : ℤ) : Camera :=
  let x0 := cx - Int.fdiv c.vw 2
  let y0 := cy - Int.fdiv c.vh 2
  { c with x := max 0 (min x0 (c.w_px - c.vw)),
           y := max 0 (min y0 (c.h_px - c.vh)) }

end Pixelmon

namespace Pixelmon

/-- C5: after `center_on` at any focus position (even one outside world
bounds) the camera origin satisfies `0 ≤ origin ≤ max 0 (world − viewport)`
on each axis independently, and on an axis whose world extent is smaller
than the viewport the origin is pinned to 0. -/
theorem camera_center_on_clamped (c : Camera) (cx cy : ℤ) :
    0 ≤ (c.center_on cx cy).x ∧
    (c.center_on cx cy).x ≤ max 0 (c.w_px - c.vw) ∧
    0 ≤ (c.center_on cx cy).y ∧
    (c.center_on cx cy).y ≤ max 0 (c.h_px - c.vh) ∧
    (c.w_px < c.vw → (c.center_on cx cy).x = 0) ∧
    (c.h_px < c.vh → (c.center_on cx cy).y = 0) := by
  unfold Camera.center_on
  refine ⟨le_max_left _ _, ?_, le_max_left _ _, ?_, ?_, ?_⟩
  · exact max_le_max le_rfl (min_le_right _ _)
  · exact max_le_max le_rfl (min_le_right _ _)
  · intro h
    simp only
    have h1 : min (cx - Int.fdiv c.vw 2) (c.w_px - c.vw) ≤ c.w_px - c.vw :=
      min_le_right _ _
    omega
  · intro h
    simp only
    have h1 : min (cy - Int.fdiv c.vh 2) (c.h_px - c.vh) ≤ c.h_px - c.vh :=
      min_le_right _ _
    omega

/-- Witness for the pinned-to-zero implications of
`camera_center_on_clamped`, at a camera whose world is smaller than its
viewport on both axes. -/
theorem camera_center_on_clamped_witness :
    (Camera.center_on ⟨300, 200, 480, 270, 0, 0⟩ 150 100).x = 0 ∧
    (Camera.center_on ⟨300, 200, 480, 270, 0, 0⟩ 150 100).y = 0 :=
  ⟨(camera_center_on_clamped ⟨300, 200, 480, 270, 0, 0⟩ 150 100).2.2.2.2.1
      (by decide),
   (camera_center_on_clamped ⟨300, 200, 480, 270, 0, 0⟩ 150 100).2.2.2.2.2
      (by decide)⟩

-- ------------------------------------------------------------------
-- Wild creature wander physics (src/main.py, Mon.update, lines 219-225)
-- ------------------------------------------------------------------

/-- The physical state of a wild `Mon` sprite: its pygame rectangle
(`left`, `top`, width `w`, height `h`, all integer pixels) and its wander
velocity vector `self.v` (floats, embedded as rationals). -/
structure MonPhys where
  left : ℤ
  top : ℤ
  w : ℤ
  h : ℤ
  vx : ℚ
  vy : ℚ
deriving DecidableEq, Repr

/-- `Mon.update(dt, map_w_px, map_h_px)` (main.py lines 219-225).
`rect.centerx += int(v.x*dt)` shifts the whole rectangle by the
truncated displacement (pygame keeps the width fixed, so moving the
center by `d` moves `left` by `d`).  Then the velocity component of any
axis whose rectangle has crossed a world boundary is negated, and the
rectangle is clamped back: first `left = max(0, left)`,
`top = max(0, top)`, then `right = min(W, right)`,
`bottom = min(H, bottom)` (the right/bottom clamps move the whole
rectangle, preserving its size). -/
def mon_update (W H : ℤ) (dt : ℚ) (m : MonPhys) : MonPhys :=
  let l1 := m.left + truncQ (m.vx * dt)
  let t1 := m.top + truncQ (m.vy * dt)
  let vx1 := if l1 < 0 ∨ l1 + m.w > W then -m.vx else m.vx
  let vy1 := if t1 < 0 ∨ t1 + m.h > H then -m.vy else m.vy
  let l2 := max 0 l1
  let t2 := max 0 t1
  let l3 := min W (l2 + m.w) - m.w
  let t3 := min H (t2 + m.h) - m.h
  { m with left := l3, top := t3, vx := vx1, vy := vy1 }

/-- C8: one wander update moves the rectangle by the truncated
`velocity * dt`, negates the velocity component of every axis on which the
moved rectangle crosses a world boundary, and clamps the rectangle back
inside the world in the same tick, so that afterwards the rectangle lies
entirely within `[0, W] × [0, H]` (for a creature that fits inside the
world). -/
theorem mon_update_in_bounds (W H : ℤ) (dt : ℚ) (m : MonPhys)
    (hwW : m.w ≤ W) (hhH : m.h ≤ H) :
    0 ≤ (mon_update W H dt m).left ∧
    (mon_update W H dt m).left + (mon_update W H dt m).w ≤ W ∧
    0 ≤ (mon_update W H dt m).top ∧
    (mon_update W H dt m).top + (mon_update W H dt m).h ≤ H ∧
    ((m.left + truncQ (m.vx * dt) < 0 ∨
        m.left + truncQ (m.vx * dt) + m.w > W) →
      (mon_update W H dt m).vx = -m.vx) ∧
    (¬ (m.left + truncQ (m.vx * dt) < 0 ∨
        m.left + truncQ (m.vx * dt) + m.w > W) →
      (mon_update W H dt m).vx = m.vx) ∧
    ((m.top + truncQ (m.vy * dt) < 0 ∨
        m.top + truncQ (m.vy * dt) + m.h > H) →
      (mon_update W H dt m).vy = -m.vy) ∧
    (¬ (m.top + truncQ (m.vy * dt) < 0 ∨
        m.top + truncQ (m.vy * dt) + m.h > H) →
      (mon_update W H dt m).vy = m.vy) := by
  unfold mon_update
  simp only
  refine ⟨?_, ?_, ?_, ?_, ?_, ?_, ?_, ?_⟩
  · omega
  · omega
  · omega
  · omega
  · intro h; rw [if_pos h]
  · intro h; rw [if_neg h]
  · intro h; rw [if_pos h]
  · intro h; rw [if_neg h]

/-- C8 counterexample: a 48×48 creature (the fixed `Mon` sprite size,
`(TILE-6) * MON_SCALE`) in a world only 30 pixels wide (a one-tile-wide
level file) is pushed to `left = -18` by the final right-edge clamp, so
after the update its rectangle does not lie within
`[0, worldWidthPx] × [0, worldHeightPx]`. -/
theorem mon_update_escapes_small_world :
    (mon_update 30 1080 0 ⟨0, 0, 48, 48, 0, 0⟩).left = -18 ∧
    (mon_update 30 1080 0 ⟨0, 0, 48, 48, 0, 0⟩).left < 0 := by
  constructor
  · norm_num [mon_update, truncQ]
  · norm_num [mon_update, truncQ]

/-- Witness for `mon_update_in_bounds`: a 48×48 creature at the right edge
of a 1920×1080 world, moving right fast enough to cross the boundary this
tick; its rectangle ends up inside the world and its `x` velocity is
reflected. -/
theorem mon_update_in_bounds_witness :
    0 ≤ (mon_update 1920 1080 (1/2) ⟨1900, 500, 48, 48, 60, 0⟩).left ∧
    (mon_update 1920 1080 (1/2) ⟨1900, 500, 48, 48, 60, 0⟩).left +
      (mon_update 1920 1080 (1/2) ⟨1900, 500, 48, 48, 60, 0⟩).w ≤ 1920 ∧
    (mon_update 1920 1080 (1/2) ⟨1900, 500, 48, 48, 60, 0⟩).vx = -(60 : ℚ) :=
  have h := mon_update_in_bounds 1920 1080 (1/2) ⟨1900, 500, 48, 48, 60, 0⟩
    (by decide) (by decide)
  ⟨h.1, h.2.1, h.2.2.2.2.1 (by norm_num [truncQ])⟩

-- ------------------------------------------------------------------
-- Wild creature respawn scheduling
-- (src/main.py, LevelWorld.timers_update lines 284-292, and the debug
-- spawn key handler in main, line 518)
-- ------------------------------------------------------------------

/-- `LevelWorld.TARGET_MON_COUNT = 7` (main.py line 228). -/
def TARGET_MON_COUNT : ℕ := 7

/-- `LevelWorld.RESPAWN_INTERVAL = 6.0` seconds (main.py line 229). -/
def RESPAWN_INTERVAL : ℚ := 6

/-- The creature-replenishment slice of `LevelWorld` state: the
accumulated respawn timer `_respawn_t` and the number of live wild
creatures in `self.mons`.  (The independent bush timer and bush list do
not interact with this slice and are not needed by any claim about it.) -/
structure SpawnSched where
  respawn_t : ℚ
  mon_count : ℕ
deriving DecidableEq, Repr

/-- The creature branch of `LevelWorld.timers_update(dt, player)`
(main.py lines 284-289): the timer is incremented by `dt`; when it
reaches `RESPAWN_INTERVAL` it is reset to zero and
`while len(self.mons) < TARGET_MON_COUNT` one creature at a time is
spawned, i.e. the live count becomes `max count TARGET_MON_COUNT`. -/
def timers_update (dt : ℚ) (s : SpawnSched) : SpawnSched :=
  let t := s.respawn_t + dt
  if RESPAWN_INTERVAL ≤ t then
    { respawn_t := 0, mon_count := max s.mon_count TARGET_MON_COUNT }
  else
    { s with respawn_t := t }

/-- The debug spawn key `P` (main.py line 518):
`world.mons.add(world.spawn_mon(player.rect.center))` adds one live
creature unconditionally, with no cap. -/
def debug_spawn (s : SpawnSched) : SpawnSched :=
  { s with mon_count := s.mon_count + 1 }

/-- Folding `timers_update` over a list of per-tick elapsed times. -/
def run_timers (dts : List ℚ) (s : SpawnSched) : SpawnSched :=
  dts.foldl (fun st d => timers_update d st) s

/-- A replenishment pass keeps an already-reached target count exactly at
the target, so the target count is preserved by every later tick. -/
theorem run_timers_keep (dts : List ℚ) :
    ∀ s : SpawnSched, s.mon_count = TARGET_MON_COUNT →
      (run_timers dts s).mon_count = TARGET_MON_COUNT := by
  induction dts with
  | nil => intro s h; exact h
  | cons d tl ih =>
    intro s h
    show (run_timers tl (timers_update d s)).mon_count = TARGET_MON_COUNT
    apply ih
    unfold timers_update
    by_cases htrig : RESPAWN_INTERVAL ≤ s.respawn_t + d
    · rw [if_pos htrig]; simp [h]
    · rw [if_neg htrig]; exact h

/-- Once the live count is at or below the target, any run of ticks whose
total elapsed time reaches a full respawn interval restores the count to
exactly the target. -/
theorem run_timers_converge (dts : List ℚ) :
    ∀ s : SpawnSched, s.mon_count ≤ TARGET_MON_COUNT → dts ≠ [] →
      RESPAWN_INTERVAL ≤ s.respawn_t + dts.sum →
      (run_timers dts s).mon_count = TARGET_MON_COUNT := by
  induction dts with
  | nil => intro s _ hne _; exact absurd rfl hne
  | cons d tl ih =>
    intro s hcnt _ hsum
    show (run_timers tl (timers_update d s)).mon_count = TARGET_MON_COUNT
    by_cases htrig : RESPAWN_INTERVAL ≤ s.respawn_t + d
    · apply run_timers_keep
      unfold timers_update
      rw [if_pos htrig]
      exact Nat.max_eq_right hcnt
    · have hs' : timers_update d s =
          { respawn_t := s.respawn_t + d, mon_count := s.mon_count } := by
        unfold timers_update; rw [if_neg htrig]
      cases tl with
      | nil =>
        exfalso
        apply htrig
        simp only [List.sum_cons, List.sum_nil, add_zero] at hsum
        linarith
      | cons e tl2 =>
        apply ih
        · rw [hs']; exact hcnt
        · simp
        · rw [hs']
          simp only [List.sum_cons] at hsum ⊢
          linarith

/-- C7 (amended): a replenishment pass never raises the live count above
`max count TARGET_MON_COUNT` — in particular it never overshoots the
target; when the timer reaches its interval it is reset to zero and, if
the count was at or below the target, the count becomes exactly the
target; and once the count is at or below the target, it is restored to
exactly the target within one respawn interval of elapsed time.  (Debug
spawn-one intents, excluded here, can push the count above the target by
an arbitrary amount — see the counterexample.) -/
theorem timers_update_replenish (dt : ℚ) (s : SpawnSched) (dts : List ℚ)
    (hcnt : s.mon_count ≤ TARGET_MON_COUNT)
    (hne : dts ≠ [])
    (hsum : RESPAWN_INTERVAL ≤ s.respawn_t + dts.sum) :
    (timers_update dt s).mon_count ≤ max s.mon_count TARGET_MON_COUNT ∧
    (RESPAWN_INTERVAL ≤ s.respawn_t + dt →
      (timers_update dt s).respawn_t = 0 ∧
      (timers_update dt s).mon_count = TARGET_MON_COUNT) ∧
    (run_timers dts s).mon_count = TARGET_MON_COUNT := by
  refine ⟨?_, ?_, run_timers_converge dts s hcnt hne hsum⟩
  · unfold timers_update
    by_cases htrig : RESPAWN_INTERVAL ≤ s.respawn_t + dt
    · rw [if_pos htrig]
    · rw [if_neg htrig]; exact le_max_left _ _
  · intro htrig
    unfold timers_update
    rw [if_pos htrig]
    exact ⟨rfl, Nat.max_eq_right hcnt⟩

/-- Witness for `timers_update_replenish`: from three live creatures and a
fresh timer, a single 6-second tick triggers the replenishment and fills
the world back to exactly seven creatures, with the timer reset. -/
theorem timers_update_replenish_witness :
    (timers_update 6 ⟨0, 3⟩).respawn_t = 0 ∧
    (timers_update 6 ⟨0, 3⟩).mon_count = TARGET_MON_COUNT ∧
    (run_timers [6] ⟨0, 3⟩).mon_count = TARGET_MON_COUNT :=
  have h := timers_update_replenish 6 ⟨0, 3⟩ [6]
    (by decide) (by simp) (by norm_num [RESPAWN_INTERVAL])
  have h2 := h.2.1 (by norm_num [RESPAWN_INTERVAL])
  ⟨h2.1, h2.2, h.2.2⟩

/-- C7 counterexample: eight debug spawn-one intents (the `P` key,
main.py line 518) issued while the live count already equals the target
leave fifteen live creatures, and the next tick's replenishment pass
removes none of them — the count exceeds `TARGET_MON_COUNT` (7) by 8,
which is more than the at-most-7 creatures any single replenishment pass
can add.  So "the count of live wild creatures never exceeds
targetCreatureCount by more than the number added in a single
replenishment pass" fails for tick sequences containing debug spawns. -/
theorem timers_update_debug_overshoot :
    (timers_update (1/10) (debug_spawn^[8] ⟨0, TARGET_MON_COUNT⟩)).mon_count
        = 15 ∧
    TARGET_MON_COUNT + 7 < 15 := by
  constructor
  · show (timers_update (1/10)
      (debug_spawn^[8] ⟨0, TARGET_MON_COUNT⟩)).mon_count = 15
    norm_num [Function.iterate_fixed, Function.iterate_succ_apply,
      debug_spawn, timers_update, TARGET_MON_COUNT, RESPAWN_INTERVAL]
  · decide

-- ------------------------------------------------------------------
-- Capture probability (src/main.py, Battle.throw_ball lines 383-385)
-- ------------------------------------------------------------------

/-- The capture probability of `Battle.throw_ball` (main.py lines
383-385):
`hp_ratio = max(0.05, wild.hp / wild.max_hp)`,
`base = 0.5 * (1.0 - hp_ratio)`,
`level_penalty = max(0.1, 1.0 - (wild.level-1)*0.05)`,
`chance = base * level_penalty + 0.15`.
Python float arithmetic is embedded as exact rational arithmetic. -/
def capture_chance (hp max_hp : ℤ) (level : ℕ) : ℚ :=
  let hp_ratio : ℚ := max (1/20) ((hp : ℚ) / (max_hp : ℚ))
  let base : ℚ := (1/2) * (1 - hp_ratio)
  let level_penalty : ℚ := max (1/10) (1 - ((level : ℚ) - 1) * (1/20))
  base * level_penalty + 3/20

/-- C3: the capture probability equals
`0.5 * (1 - hpRatio) * levelPenalty + 0.15` with
`hpRatio = max(0.05, hp/maxHp)` and
`levelPenalty = max(0.1, 1 - (level-1)*0.05)`; at fixed level it is
non-increasing in the wild vitality (so non-decreasing as vitality
decreases); at fixed vitality and max vitality (hence fixed ratio) it is
non-increasing in the wild level; and for vitality in `[0, maxVitality]`
and level in `[1, 10]` it lies in `[0.15, 0.65]`. -/
theorem capture_chance_formula_monotone_bounded
    (hp hp1 hp2 maxv : ℤ) (l l1 l2 : ℕ) (hmax : 0 < maxv) :
    (capture_chance hp maxv l =
      (1/2) * (1 - max (1/20) ((hp : ℚ) / (maxv : ℚ))) *
        max (1/10) (1 - ((l : ℚ) - 1) * (1/20)) + 3/20) ∧
    (hp1 ≤ hp2 → capture_chance hp2 maxv l ≤ capture_chance hp1 maxv l) ∧
    (0 ≤ hp → hp ≤ maxv → l1 ≤ l2 →
      capture_chance hp maxv l2 ≤ capture_chance hp maxv l1) ∧
    (0 ≤ hp → hp ≤ maxv → 1 ≤ l → l ≤ 10 →
      3/20 ≤ capture_chance hp maxv l ∧ capture_chance hp maxv l ≤ 13/20) := by
  have hc : (0 : ℚ) < (maxv : ℚ) := by exact_mod_cast hmax
  refine ⟨rfl, ?_, ?_, ?_⟩
  · -- monotone in vitality, level fixed
    intro h12
    have hd : (hp1 : ℚ) / (maxv : ℚ) ≤ (hp2 : ℚ) / (maxv : ℚ) := by
      have h12q : (hp1 : ℚ) ≤ (hp2 : ℚ) := by exact_mod_cast h12
      gcongr
    have hr : max (1/20) ((hp1 : ℚ) / (maxv : ℚ)) ≤
        max (1/20) ((hp2 : ℚ) / (maxv : ℚ)) := max_le_max le_rfl hd
    have hp0 : (0 : ℚ) ≤ max (1/10) (1 - ((l : ℚ) - 1) * (1/20)) :=
      le_trans (by norm_num) (le_max_left _ _)
    unfold capture_chance
    have hb : (1/2 : ℚ) * (1 - max (1/20) ((hp2 : ℚ) / (maxv : ℚ))) ≤
        (1/2) * (1 - max (1/20) ((hp1 : ℚ) / (maxv : ℚ))) := by linarith
    exact add_le_add_right (mul_le_mul_of_nonneg_right hb hp0) _
  · -- monotone in level, vitality fixed
    intro hhp0 hhpm h12
    have hl : (l1 : ℚ) ≤ (l2 : ℚ) := by exact_mod_cast h12
    have hpen : max (1/10) (1 - ((l2 : ℚ) - 1) * (1/20)) ≤
        max (1/10) (1 - ((l1 : ℚ) - 1) * (1/20)) :=
      max_le_max le_rfl (by linarith)
    have hr1 : (hp : ℚ) / (maxv : ℚ) ≤ 1 :=
      (div_le_one hc).mpr (by exact_mod_cast hhpm)
    have hr : max (1/20) ((hp : ℚ) / (maxv : ℚ)) ≤ 1 :=
      max_le (by norm_num) hr1
    have hb0 : (0 : ℚ) ≤ (1/2) * (1 - max (1/20) ((hp : ℚ) / (maxv : ℚ))) := by
      linarith
    unfold capture_chance
    exact add_le_add_right (mul_le_mul_of_nonneg_left hpen hb0) _
  · -- bounds for vitality in [0, maxv] and level in [1, 10]
    intro hhp0 hhpm hl1 hl10
    have hr1 : (hp : ℚ) / (maxv : ℚ) ≤ 1 :=
      (div_le_one hc).mpr (by exact_mod_cast hhpm)
    have hrlo : (1/20 : ℚ) ≤ max (1/20) ((hp : ℚ) / (maxv : ℚ)) :=
      le_max_left _ _
    have hrhi : max (1/20) ((hp : ℚ) / (maxv : ℚ)) ≤ 1 :=
      max_le (by norm_num) hr1
    have hlq : (1 : ℚ) ≤ (l : ℚ) := by exact_mod_cast hl1
    have hplo : (1/10 : ℚ) ≤ max (1/10) (1 - ((l : ℚ) - 1) * (1/20)) :=
      le_max_left _ _
    have hphi : max (1/10) (1 - ((l : ℚ) - 1) * (1/20)) ≤ 1 :=
      max_le (by norm_num) (by linarith)
    unfold capture_chance
    constructor
    · nlinarith
    · nlinarith

/-- Witness for `capture_chance_formula_monotone_bounded`, at the spec's
scenario numbers: a level-5 wild creature with `maxVitality = 25`, current
vitality 2 versus 25, and levels 5 versus 9. -/
theorem capture_chance_formula_monotone_bounded_witness :
    (capture_chance 2 25 5 =
      (1/2) * (1 - max (1/20) ((2 : ℚ) / (25 : ℚ))) *
        max (1/10) (1 - ((5 : ℚ) - 1) * (1/20)) + 3/20) ∧
    capture_chance 25 25 5 ≤ capture_chance 2 25 5 ∧
    capture_chance 2 25 9 ≤ capture_chance 2 25 5 ∧
    3/20 ≤ capture_chance 2 25 5 ∧ capture_chance 2 25 5 ≤ 13/20 :=
  have h := capture_chance_formula_monotone_bounded 2 2 25 25 5 5 9
    (by decide)
  ⟨h.1, h.2.1 (by decide), h.2.2.1 (by decide) (by decide) (by decide),
   h.2.2.2 (by decide) (by decide) (by decide) (by decide)⟩

-- ------------------------------------------------------------------
-- Battle system (src/main.py, class Battle, lines 297-397)
-- ------------------------------------------------------------------

/-- A roster member dict (`player.team` entry, main.py line 178 / 389):
`{"name", "level", "max_hp", "hp"}` (the sprite surface is rendering-only
and omitted). -/
structure RosterMember where
  name : String
  level : ℕ
  max_hp : ℤ
  hp : ℤ
deriving DecidableEq, Repr

/-- The battle-relevant state of a wild `Mon` (main.py lines 209-213):
`name`, `level` (in `[1,10]` at spawn), `max_hp = 10 + level*3`, `hp`. -/
structure Wild where
  name : String
  level : ℕ
  max_hp : ℤ
  hp : ℤ
deriving DecidableEq, Repr

/-- `Mon.__init__` stat assignment (main.py lines 212-213):
`max_hp = 10 + level * 3; hp = max_hp`. -/
def mon_mk (name : String) (level : ℕ) : Wild :=
  { name := name, level := level, max_hp := 10 + level * 3,
    hp := 10 + level * 3 }

/-- The battle-relevant slice of `Player` (main.py lines 177-180):
apricorns, balls, team, caught species set, active roster index. -/
structure PlayerSt where
  apricorns : ℕ
  balls : ℕ
  team : List RosterMember
  caught_species : Finset String
  active_index : ℕ
deriving DecidableEq

/-- `Battle.state` (main.py line 301): `"select"` or `"fight"`; the
`Resolved` state of the spec is `active = False`. -/
inductive BState where
  | select
  | fight
deriving DecidableEq, Repr

/-- The state of a `Battle` (main.py lines 298-304).  Python's `my_mon`
holds a reference to the team dict chosen by `get_active_mon`; it is
modelled as the index `myIdx` of that entry in `player.team` (`none` when
`get_active_mon` returned `None`, i.e. the team was empty). -/
structure BattleSt where
  player : PlayerSt
  wild : Wild
  active : Bool
  cooldown : ℚ
  state : BState
  cursor : ℕ
  message : String
  myIdx : Option ℕ
deriving DecidableEq

/-- `Player.get_active_mon` (main.py lines 192-195) clamps
`active_index` with `max(0, min(active_index, len(team)-1))` (the index is
a natural number, so only the upper clamp matters) and returns the entry;
on an empty team it returns `None`. -/
def clamp_index (idx len : ℕ) : ℕ := min idx (len - 1)

/-- `Battle.__init__` (main.py lines 298-304): the battle starts active
with zero cooldown, state `"select"` if `player.team` is non-empty and
`"fight"` otherwise, cursor 0, the appearance message, and
`my_mon = player.get_active_mon()` (which clamps `active_index`). -/
def battle_init (p : PlayerSt) (w : Wild) : BattleSt :=
  if p.team.isEmpty then
    { player := p, wild := w, active := true, cooldown := 0,
      state := BState.fight, cursor := 0,
      message := "A wild " ++ w.name ++ " (Lv" ++ toString w.level ++
        ") appeared!",
      myIdx := none }
  else
    { player := { p with active_index := clamp_index p.active_index p.team.length },
      wild := w, active := true, cooldown := 0,
      state := BState.select, cursor := 0,
      message := "A wild " ++ w.name ++ " (Lv" ++ toString w.level ++
        ") appeared!",
      myIdx := some (clamp_index p.active_index p.team.length) }

/-- The confirm intent in the `"select"` state (main.py lines 345-349):
with a non-empty team, `active_index` is set to the cursor,
`my_mon = get_active_mon()` re-clamps it, and the state becomes
`"fight"`. -/
def select_confirm (b : BattleSt) : BattleSt :=
  if b.state = BState.select then
    if b.player.team.isEmpty then b
    else
      let i := clamp_index b.cursor b.player.team.length
      { b with player := { b.player with active_index := i },
               myIdx := some i, state := BState.fight }
  else b

/-- `Battle.attack_round` (main.py lines 353-377), with the two
`random.randint` draws passed explicitly: `r1` for the player damage roll
`randint(2,4)` and `r2` for the counter-attack roll `randint(1,3)`.
On cooldown it is a no-op; with no `my_mon` it only sets a message.
Otherwise the wild creature takes `r1 + max(0, level//3)` damage (clamped
at 0); if its hp reaches 0 the player gains an apricorn and the battle
deactivates; otherwise it counter-attacks for `r2 + max(0, wildLevel//4)`
and, if the active member faints, the battle returns to selection when
any team member is still alive, else deactivates.  All non-early-return
paths end by setting `cooldown = 0.6`. -/
def attack_round (r1 r2 : ℕ) (b : BattleSt) : BattleSt :=
  if 0 < b.cooldown then b
  else
    match b.myIdx.bind (fun i => (b.player.team.get? i).map (fun m => (i, m))) with
    | none => { b with message := "No team mon! Throw a ball or run." }
    | some (i, m) =>
      let dmg : ℤ := (r1 + m.level / 3 : ℕ)
      let wildHp := max 0 (b.wild.hp - dmg)
      let msg1 := m.name ++ " dealt " ++ toString dmg ++ " to " ++
        b.wild.name ++ "!"
      if wildHp ≤ 0 then
        { b with wild := { b.wild with hp := wildHp },
                 message := b.wild.name ++ " fainted. You found an apricorn!",
                 player := { b.player with apricorns := b.player.apricorns + 1 },
                 active := false, cooldown := 3/5 }
      else
        let edmg : ℤ := (r2 + b.wild.level / 4 : ℕ)
        let m1 := { m with hp := max 0 (m.hp - edmg) }
        let team1 := b.player.team.set i m1
        if m1.hp ≤ 0 then
          if (team1.filter (fun x => decide (0 < x.hp))).isEmpty then
            { b with wild := { b.wild with hp := wildHp },
                     player := { b.player with team := team1 },
                     message := m.name ++ " fainted!" ++
                       " You have no mons left!",
                     active := false, cooldown := 3/5 }
          else
            { b with wild := { b.wild with hp := wildHp },
                     player := { b.player with team := team1 },
                     message := m.name ++ " fainted!",
                     state := BState.select, cursor := 0, cooldown := 3/5 }
        else
          { b with wild := { b.wild with hp := wildHp },
                   player := { b.player with team := team1 },
                   message := msg1 ++ "  " ++ b.wild.name ++
                     " hits back for " ++ toString edmg ++ "!",
                   cooldown := 3/5 }

/-- `Battle.throw_ball` (main.py lines 378-397), with the uniform
`random.random()` draw passed explicitly as `r`.  On cooldown it is a
no-op; with no balls it only sets a message.  Otherwise one ball is
consumed; a draw below `capture_chance` appends a snapshot of the wild
creature to the team, adds its species to the caught set, (from the
selection popup: makes the newcomer the active member and returns to
`"fight"`), and deactivates the battle; a failed draw only sets a
message.  Both outcomes set `cooldown = 0.8`. -/
def throw_ball (r : ℚ) (b : BattleSt) : BattleSt :=
  if 0 < b.cooldown then b
  else if b.player.balls = 0 then
    { b with message := "No balls left! Craft with [C]." }
  else
    let p1 := { b.player with balls := b.player.balls - 1 }
    if r < capture_chance b.wild.hp b.wild.max_hp b.wild.level then
      let newMember : RosterMember :=
        { name := b.wild.name, level := b.wild.level,
          max_hp := b.wild.max_hp, hp := b.wild.hp }
      let team1 := p1.team ++ [newMember]
      let p2 := { p1 with team := team1,
                          caught_species := insert b.wild.name p1.caught_species }
      if b.state = BState.select then
        { b with player := { p2 with active_index := team1.length - 1 },
                 myIdx := some (clamp_index (team1.length - 1) team1.length),
                 state := BState.fight, active := false,
                 message := "Gotcha! " ++ b.wild.name ++ " was caught!",
                 cooldown := 4/5 }
      else
        { b with player := p2, active := false,
                 message := "Gotcha! " ++ b.wild.name ++ " was caught!",
                 cooldown := 4/5 }
    else
      { b with player := p1, message := "Oh no! It broke free.",
               cooldown := 4/5 }

-- Concrete states used by witnesses and counterexamples.

/-- A roster member at full vitality. -/
def exMemberA : RosterMember := { name := "A", level := 5, max_hp := 25, hp := 25 }

/-- A second roster member at full vitality. -/
def exMemberB : RosterMember := { name := "B", level := 2, max_hp := 16, hp := 16 }

/-- A player owning one roster member. -/
def exPlayer1 : PlayerSt :=
  { apricorns := 0, balls := 3, team := [exMemberA], caught_species := ∅,
    active_index := 0 }

/-- A level-3 wild creature (`max_hp = 19`). -/
def exWild : Wild := mon_mk "W" 3

/-- C2 counterexample: a player whose previous battle already fixed the
active roster index (a full select-confirm happened, the state reached
`"fight"`) still begins the next encounter in the `Selecting` state,
because `Battle.__init__` (main.py line 301) tests only whether the team
is non-empty. -/
theorem battle_init_ignores_fixed_index :
    (select_confirm (battle_init exPlayer1 exWild)).state = BState.fight ∧
    (select_confirm (battle_init exPlayer1 exWild)).player.team.isEmpty = false ∧
    (battle_init (select_confirm (battle_init exPlayer1 exWild)).player
        exWild).state = BState.select := by
  refine ⟨rfl, rfl, rfl⟩

/-- C2 (amended): a newly created encounter starts in the `Fighting`
state exactly when the player's roster is empty, and in `Selecting`
otherwise — whether or not a previous battle fixed the active roster
index; the new encounter is active with its cursor at 0. -/
theorem battle_init_state (p : PlayerSt) (w : Wild) :
    ((battle_init p w).state = BState.fight ↔ p.team = []) ∧
    (battle_init p w).active = true ∧
    (battle_init p w).cursor = 0 := by
  unfold battle_init
  by_cases h : p.team.isEmpty
  · rw [if_pos h]
    simp_all [List.isEmpty_iff]
  · rw [if_neg h]
    simp_all [List.isEmpty_iff]

/-- Witness for `battle_init_state` at a one-member roster and at an
empty roster. -/
theorem battle_init_state_witness :
    ((battle_init exPlayer1 exWild).state = BState.fight ↔
      exPlayer1.team = []) ∧
    (battle_init exPlayer1 exWild).active = true ∧
    (battle_init exPlayer1 exWild).cursor = 0 :=
  battle_init_state exPlayer1 exWild

/-- C9: an attack or capture issued on cooldown returns the battle state
unchanged, message included; off cooldown, a capture with zero balls and
an attack with no active roster member change nothing but the message
(in particular the encounter stays as active as it was). -/
theorem battle_noop_guards (b : BattleSt) (r1 r2 : ℕ) (r : ℚ) :
    (0 < b.cooldown →
      attack_round r1 r2 b = b ∧ throw_ball r b = b) ∧
    (¬ 0 < b.cooldown → b.player.balls = 0 →
      throw_ball r b = { b with message := "No balls left! Craft with [C]." } ∧
      (throw_ball r b).active = b.active) ∧
    (¬ 0 < b.cooldown → b.myIdx = none →
      attack_round r1 r2 b
          = { b with message := "No team mon! Throw a ball or run." } ∧
      (attack_round r1 r2 b).active = b.active) := by
  refine ⟨?_, ?_, ?_⟩
  · intro h
    constructor
    · unfold attack_round; rw [if_pos h]
    · unfold throw_ball; rw [if_pos h]
  · intro h hb
    have he : throw_ball r b
        = { b with message := "No balls left! Craft with [C]." } := by
      unfold throw_ball; rw [if_neg h, if_pos hb]
    exact ⟨he, by rw [he]⟩
  · intro h hidx
    have he : attack_round r1 r2 b
        = { b with message := "No team mon! Throw a ball or run." } := by
      unfold attack_round
      rw [if_neg h, hidx]
      rfl
    exact ⟨he, by rw [he]⟩

/-- A battle that is on cooldown. -/
def exBattleCd : BattleSt := { battle_init exPlayer1 exWild with cooldown := 1/2 }

/-- A battle of a player with an empty roster and no balls. -/
def exBattleEmpty : BattleSt :=
  battle_init { apricorns := 0, balls := 0, team := [], caught_species := ∅,
                active_index := 0 } exWild

/-- Witness for `battle_noop_guards`: concrete on-cooldown no-ops and the
two explanatory-message cases. -/
theorem battle_noop_guards_witness :
    (attack_round 3 2 exBattleCd = exBattleCd ∧
      throw_ball (1/2) exBattleCd = exBattleCd) ∧
    throw_ball (1/2) exBattleEmpty
        = { exBattleEmpty with message := "No balls left! Craft with [C]." } ∧
    attack_round 3 2 exBattleEmpty
        = { exBattleEmpty with message := "No team mon! Throw a ball or run." } :=
  have h1 := (battle_noop_guards exBattleCd 3 2 (1/2)).1 (by norm_num [exBattleCd])
  have h2 := ((battle_noop_guards exBattleEmpty 3 2 (1/2)).2.1
    (by norm_num [exBattleEmpty, battle_init]) rfl).1
  have h3 := ((battle_noop_guards exBattleEmpty 3 2 (1/2)).2.2
    (by norm_num [exBattleEmpty, battle_init]) rfl).1
  ⟨h1, h2, h3⟩

/-- C6: creation (`Mon.__init__`) sets `maxVitality = 10 + 3*level` and
vitality equal to it (hence non-negative), and an attack round — the only
place either side's vitality changes — keeps every creature's vitality in
`[0, maxVitality]`: damage is clamped at 0 and never raises vitality, and
max vitality is never modified. -/
theorem vitality_invariant (name : String) (level : ℕ) (r1 r2 : ℕ)
    (b : BattleSt)
    (hw0 : 0 ≤ b.wild.hp) (hwm : b.wild.hp ≤ b.wild.max_hp)
    (hteam : ∀ m ∈ b.player.team, 0 ≤ m.hp ∧ m.hp ≤ m.max_hp) :
    ((mon_mk name level).max_hp = 10 + 3 * level ∧
      (mon_mk name level).hp = (mon_mk name level).max_hp ∧
      0 ≤ (mon_mk name level).hp) ∧
    (0 ≤ (attack_round r1 r2 b).wild.hp ∧
      (attack_round r1 r2 b).wild.hp ≤ (attack_round r1 r2 b).wild.max_hp) ∧
    (∀ m ∈ (attack_round r1 r2 b).player.team,
      0 ≤ m.hp ∧ m.hp ≤ m.max_hp) := by
  have hmax0 : (0 : ℤ) ≤ b.wild.max_hp := le_trans hw0 hwm
  refine ⟨⟨by unfold mon_mk; simp; ring, rfl, by unfold mon_mk; simp; positivity⟩, ?_⟩
  unfold attack_round
  split
  · exact ⟨⟨hw0, hwm⟩, hteam⟩
  · split
    · exact ⟨⟨hw0, hwm⟩, hteam⟩
    · rename_i i m heq
      have hm : m ∈ b.player.team := by
        rcases Option.bind_eq_some.mp heq with ⟨a, _, hfa⟩
        rcases Option.map_eq_some'.mp hfa with ⟨m', hget, hpair⟩
        cases hpair
        exact List.get?_mem hget
      have hm2 := hteam m hm
      have hwild : 0 ≤ max 0 (b.wild.hp - ((r1 + m.level / 3 : ℕ) : ℤ)) ∧
          max 0 (b.wild.hp - ((r1 + m.level / 3 : ℕ) : ℤ)) ≤ b.wild.max_hp := by
        constructor
        · exact le_max_left _ _
        · apply max_le hmax0
          have : (0 : ℤ) ≤ ((r1 + m.level / 3 : ℕ) : ℤ) := Int.ofNat_nonneg _
          omega
      have hteam1 : ∀ x ∈ b.player.team.set i
          { m with hp := max 0 (m.hp - ((r2 + b.wild.level / 4 : ℕ) : ℤ)) },
          0 ≤ x.hp ∧ x.hp ≤ x.max_hp := by
        intro x hx
        rcases List.mem_or_eq_of_mem_set hx with hx' | hx'
        · exact hteam x hx'
        · subst hx'
          refine ⟨le_max_left _ _, ?_⟩
          have : (0 : ℤ) ≤ ((r2 + b.wild.level / 4 : ℕ) : ℤ) := Int.ofNat_nonneg _
          simp only
          apply max_le (le_trans hm2.1 hm2.2)
          omega
      simp only
      split
      · exact ⟨hwild, hteam⟩
      · split
        · split
          · exact ⟨hwild, hteam1⟩
          · exact ⟨hwild, hteam1⟩
        · exact ⟨hwild, hteam1⟩

/-- Witness for `vitality_invariant`: a concrete attack round from the
one-member example battle, with maximal damage rolls. -/
theorem vitality_invariant_witness :
    ((mon_mk "W" 3).max_hp = 10 + 3 * 3 ∧
      (mon_mk "W" 3).hp = (mon_mk "W" 3).max_hp ∧ 0 ≤ (mon_mk "W" 3).hp) ∧
    (0 ≤ (attack_round 4 3 (select_confirm (battle_init exPlayer1 exWild))).wild.hp ∧
      (attack_round 4 3 (select_confirm (battle_init exPlayer1 exWild))).wild.hp ≤
        (attack_round 4 3 (select_confirm (battle_init exPlayer1 exWild))).wild.max_hp) ∧
    (∀ m ∈ (attack_round 4 3 (select_confirm (battle_init exPlayer1 exWild))).player.team,
      0 ≤ m.hp ∧ m.hp ≤ m.max_hp) :=
  vitality_invariant "W" 3 4 3 (select_confirm (battle_init exPlayer1 exWild))
    (by decide) (by decide) (by decide)

/-- After the active member at index `i` is overwritten with a fainted
copy, the `alive = [m for m in team if m.hp > 0]` list of
`attack_round` is empty exactly when no other team member is alive. -/
theorem filter_set_dead_isEmpty (team : List RosterMember) (i : ℕ)
    (m1 : RosterMember) (hi : i < team.length) (hdead : ¬ 0 < m1.hp) :
    (((team.set i m1).filter (fun x => decide (0 < x.hp))).isEmpty = true ↔
      ¬ ∃ j, ∃ hj : j < team.length, j ≠ i ∧ 0 < team[j].hp) := by
  rw [List.isEmpty_iff, List.filter_eq_nil_iff]
  constructor
  · intro hall hex
    obtain ⟨j, hj, hne, hlive⟩ := hex
    have hj' : j < (team.set i m1).length := by
      rw [List.length_set]; exact hj
    have hmem : (team.set i m1)[j] ∈ team.set i m1 := List.getElem_mem _
    have heq : (team.set i m1)[j] = team[j] :=
      List.getElem_set_ne (fun h => hne h.symm) hj'
    have := hall _ hmem
    rw [heq] at this
    simp only [decide_eq_true_eq] at this
    exact this hlive
  · intro hnone x hx
    simp only [decide_eq_true_eq]
    rcases List.mem_iff_get.mp hx with ⟨⟨j, hj'⟩, hget⟩
    have hj : j < team.length := by
      rw [List.length_set] at hj'; exact hj'
    simp only [List.get_eq_getElem] at hget
    by_cases hij : j = i
    · subst hij
      have hx1 : x = m1 := by
        rw [← hget]
        exact List.getElem_set_self hj'
      rw [hx1]; exact hdead
    · have hx1 : x = team[j] := by
        rw [← hget]
        exact List.getElem_set_ne (fun h => hij h.symm) hj'
      intro hlive
      exact hnone ⟨j, hj, hij, hx1 ▸ hlive⟩

/-- C1: off cooldown in the `Fighting` state with a live active roster
member, an attack deals `r1 + floor(level/3)` damage (for the uniform
roll `r1` from `[2,4]`) to the wild creature, clamped at 0.  If the wild
creature's vitality reaches 0, the player gains exactly one apricorn and
the battle deactivates (`Resolved`).  Otherwise the wild creature hits
the active member back for `r2 + floor(wildLevel/4)` (roll `r2` from
`[1,3]`); if the member's vitality reaches 0, the battle moves to
`Selecting` with cursor 0 (still active) when some other member is alive,
and otherwise deactivates with no apricorn gained. -/
theorem attack_round_fighting (r1 r2 i : ℕ) (m : RosterMember)
    (b : BattleSt)
    (hst : b.state = BState.fight)
    (hcd : ¬ 0 < b.cooldown)
    (hidx : b.myIdx = some i)
    (hmem : b.player.team.get? i = some m)
    (hlive : 0 < m.hp)
    (hr1 : 2 ≤ r1) (hr4 : r1 ≤ 4) (hr2 : 1 ≤ r2) (hr3 : r2 ≤ 3) :
    (attack_round r1 r2 b).wild.hp
        = max 0 (b.wild.hp - ((r1 + m.level / 3 : ℕ) : ℤ)) ∧
    (b.wild.hp ≤ ((r1 + m.level / 3 : ℕ) : ℤ) →
      (attack_round r1 r2 b).player.apricorns = b.player.apricorns + 1 ∧
      (attack_round r1 r2 b).active = false ∧
      (attack_round r1 r2 b).player.team = b.player.team) ∧
    (((r1 + m.level / 3 : ℕ) : ℤ) < b.wild.hp →
      (attack_round r1 r2 b).player.team
          = b.player.team.set i
              { m with hp := max 0 (m.hp - ((r2 + b.wild.level / 4 : ℕ) : ℤ)) } ∧
      (attack_round r1 r2 b).player.apricorns = b.player.apricorns ∧
      (m.hp ≤ ((r2 + b.wild.level / 4 : ℕ) : ℤ) →
        ((∃ j, ∃ hj : j < b.player.team.length, j ≠ i ∧
            0 < b.player.team[j].hp) →
          (attack_round r1 r2 b).state = BState.select ∧
          (attack_round r1 r2 b).cursor = 0 ∧
          (attack_round r1 r2 b).active = b.active) ∧
        ((¬ ∃ j, ∃ hj : j < b.player.team.length, j ≠ i ∧
            0 < b.player.team[j].hp) →
          (attack_round r1 r2 b).active = false)) ∧
      (((r2 + b.wild.level / 4 : ℕ) : ℤ) < m.hp →
        (attack_round r1 r2 b).state = b.state ∧
        (attack_round r1 r2 b).active = b.active)) := by
  have hbind : (b.myIdx.bind fun k =>
      Option.map (fun x => (k, x)) (b.player.team.get? k)) = some (i, m) := by
    rw [hidx, Option.some_bind, hmem, Option.map_some']
  obtain ⟨hi, -⟩ := List.get?_eq_some.mp hmem
  unfold attack_round
  rw [if_neg hcd]
  split
  · rename_i h
    rw [hbind] at h
    exact absurd h (by simp)
  · rename_i i' m' h
    rw [hbind] at h
    injection h with h2
    injection h2 with hA hB
    subst hA
    subst hB
    simp only
    by_cases hfaint : b.wild.hp ≤ ((r1 + m.level / 3 : ℕ) : ℤ)
    · rw [if_pos (by omega :
        (0 : ℤ) ⊔ (b.wild.hp - ((r1 + m.level / 3 : ℕ) : ℤ)) ≤ 0)]
      exact ⟨rfl, fun _ => ⟨rfl, rfl, rfl⟩,
        fun hlt => absurd hlt (not_lt.mpr hfaint)⟩
    · rw [if_neg (by omega :
        ¬ (0 : ℤ) ⊔ (b.wild.hp - ((r1 + m.level / 3 : ℕ) : ℤ)) ≤ 0)]
      by_cases hmf : m.hp ≤ ((r2 + b.wild.level / 4 : ℕ) : ℤ)
      · rw [if_pos (by simp only; omega :
          ({ m with hp := max 0 (m.hp - ((r2 + b.wild.level / 4 : ℕ) : ℤ)) } :
            RosterMember).hp ≤ 0)]
        have hdead : ¬ 0 <
            ({ m with hp := max 0 (m.hp - ((r2 + b.wild.level / 4 : ℕ) : ℤ)) } :
              RosterMember).hp := by
          simp only; omega
        have hiff := filter_set_dead_isEmpty b.player.team i
          { m with hp := max 0 (m.hp - ((r2 + b.wild.level / 4 : ℕ) : ℤ)) }
          hi hdead
        by_cases hex : ∃ j, ∃ hj : j < b.player.team.length, j ≠ i ∧
            0 < b.player.team[j].hp
        · rw [if_neg (fun hemp => (hiff.mp hemp) hex)]
          exact ⟨rfl, fun hle => absurd hle hfaint,
            fun _ => ⟨rfl, rfl,
              fun _ => ⟨fun _ => ⟨rfl, rfl, rfl⟩,
                fun hnex => absurd hex hnex⟩,
              fun hgt => absurd hgt (not_lt.mpr hmf)⟩⟩
        · rw [if_pos (hiff.mpr hex)]
          exact ⟨rfl, fun hle => absurd hle hfaint,
            fun _ => ⟨rfl, rfl,
              fun _ => ⟨fun hex2 => absurd hex2 hex, fun _ => rfl⟩,
              fun hgt => absurd hgt (not_lt.mpr hmf)⟩⟩
      · rw [if_neg (by simp only; omega :
          ¬ ({ m with hp := max 0 (m.hp - ((r2 + b.wild.level / 4 : ℕ) : ℤ)) } :
            RosterMember).hp ≤ 0)]
        exact ⟨rfl, fun hle => absurd hle hfaint,
          fun _ => ⟨rfl, rfl,
            fun hle => absurd hle hmf,
            fun _ => ⟨rfl, rfl⟩⟩⟩

/-- A fight-state battle whose active member has 1 hp left while a second
member is at full vitality. -/
def exBattleFaint : BattleSt :=
  select_confirm (battle_init
    { apricorns := 0, balls := 3,
      team := [{ name := "A", level := 5, max_hp := 25, hp := 1 }, exMemberB],
      caught_species := ∅, active_index := 0 } exWild)

/-- Witness for `attack_round_fighting`: in `exBattleFaint` the rolls
`r1 = 2, r2 = 1` deal 3 to the level-3 wild creature (not enough to faint
it), the counter-attack faints the 1-hp active member, and since member
`"B"` is still alive the battle moves to `Selecting` with cursor 0. -/
theorem attack_round_fighting_witness :
    (attack_round 2 1 exBattleFaint).wild.hp
        = max 0 (exBattleFaint.wild.hp - ((2 + 5 / 3 : ℕ) : ℤ)) ∧
    (attack_round 2 1 exBattleFaint).state = BState.select ∧
    (attack_round 2 1 exBattleFaint).cursor = 0 ∧
    (attack_round 2 1 exBattleFaint).active = exBattleFaint.active := by
  have h := attack_round_fighting 2 1 0
    { name := "A", level := 5, max_hp := 25, hp := 1 } exBattleFaint
    rfl (by decide) rfl rfl (by decide)
    (by decide) (by decide) (by decide) (by decide)
  have hsel := ((h.2.2 (by decide)).2.2.1 (by decide)).1
    ⟨1, by decide, by decide, by decide⟩
  exact ⟨h.1, hsel.1, hsel.2.1, hsel.2.2⟩

-- ------------------------------------------------------------------
-- Species table, spawning and the victory flag
-- (src/main.py, load_creatures lines 116-124, LevelWorld.spawn_mon
-- lines 268-283, and the per-tick victory check in main, lines 548-549)
-- ------------------------------------------------------------------

/-- The creature roster table: one species-name list per biome
(`creatures["grass"|"water"|"sand"]`; sprites are rendering-only). -/
structure CreatureTable where
  grass : List String
  water : List String
  sand : List String
deriving DecidableEq, Repr

/-- Biome tags of the tile grid. -/
inductive Biome where
  | grass
  | water
  | sand
deriving DecidableEq, Repr

/-- `self.creatures.get(biome, [])` in `spawn_mon` (main.py line 276). -/
def biome_options (t : CreatureTable) : Biome → List String
  | Biome.grass => t.grass
  | Biome.water => t.water
  | Biome.sand => t.sand

/-- The species name chosen by `LevelWorld.spawn_mon` (main.py lines
276-280): `"Critter"` when the biome's option list is empty, otherwise
`random.choice(options)` — the uniform pick is modelled by an index
`pick` reduced modulo the list length (so the default of `getD` is never
used). -/
def spawn_name (t : CreatureTable) (b : Biome) (pick : ℕ) : String :=
  let options := biome_options t b
  if options.isEmpty then "Critter"
  else options.getD (pick % options.length) "Critter"

/-- `ALL_SPECIES` (main.py line 123): the set of names occurring in any
biome list; `len(ALL_SPECIES)` is its cardinality. -/
def all_species (t : CreatureTable) : Finset String :=
  (t.grass ++ t.water ++ t.sand).toFinset

/-- The per-tick victory check (main.py lines 548-549):
`if not victory and len(player.caught_species) >= len(ALL_SPECIES):
victory = True`. -/
def victory_check (t : CreatureTable) (caught : Finset String)
    (victory : Bool) : Bool :=
  victory || decide ((all_species t).card ≤ caught.card)

/-- A table whose only known species is `"A"` (grass), with an empty
water list — the configuration that makes `spawn_mon` fall back to
`"Critter"` on water tiles. -/
def exTable : CreatureTable := { grass := ["A"], water := [], sand := [] }

/-- C4 counterexample: catching a single `"Critter"` — the fallback
species spawned on a biome with an empty option list, which is not a
known species — makes `|caughtSpeciesSet| ≥ |allKnownSpecies|` hold and
sets the victory flag while the known species `"A"` is still uncaught. -/
theorem victory_check_critter_early :
    spawn_name exTable Biome.water 0 = "Critter" ∧
    victory_check exTable
      (insert (spawn_name exTable Biome.water 0) ∅) false = true ∧
    "A" ∈ all_species exTable ∧
    "A" ∉ insert (spawn_name exTable Biome.water 0) (∅ : Finset String) := by
  refine ⟨rfl, by decide, by decide, by decide⟩

/-- C4 (amended): the per-tick flag becomes true exactly when
`|caughtSpeciesSet| ≥ |allKnownSpecies|` (or was already true).  When
every caught species is a known one — in particular under capture
sequences whose spawns all drew from non-empty biome lists, since those
spawns always produce known species — the flag is never set while some
known species is uncaught: reaching the full count forces the caught set
to equal the full species set.  A caught fallback `"Critter"` from an
empty biome list can set the flag earlier. -/
theorem victory_check_exact (t : CreatureTable) (caught : Finset String)
    (v : Bool) :
    (victory_check t caught v = true ↔
      (v = true ∨ (all_species t).card ≤ caught.card)) ∧
    (caught ⊆ all_species t → victory_check t caught false = true →
      caught = all_species t) ∧
    (∀ b : Biome, ¬ (biome_options t b).isEmpty = true →
      ∀ pick : ℕ, spawn_name t b pick ∈ all_species t) := by
  refine ⟨?_, ?_, ?_⟩
  · simp [victory_check]
  · intro hsub hvic
    have hcard : (all_species t).card ≤ caught.card := by
      simpa [victory_check] using hvic
    exact Finset.eq_of_subset_of_card_le hsub hcard
  · intro b hne pick
    unfold spawn_name
    simp only
    rw [if_neg hne]
    have hpos : 0 < (biome_options t b).length := by
      rw [List.isEmpty_iff] at hne
      exact List.length_pos.mpr hne
    have hlt : pick % (biome_options t b).length <
        (biome_options t b).length := Nat.mod_lt _ hpos
    have hmem : (biome_options t b).getD
        (pick % (biome_options t b).length) "Critter" ∈ biome_options t b := by
      rw [List.getD_eq_getElem _ _ hlt]
      exact List.getElem_mem hlt
    unfold all_species
    rw [List.mem_toFinset]
    rw [List.mem_append, List.mem_append]
    cases b with
    | grass => simp only [biome_options] at hmem ⊢; exact Or.inl (Or.inl hmem)
    | water => simp only [biome_options] at hmem ⊢; exact Or.inl (Or.inr hmem)
    | sand => simp only [biome_options] at hmem ⊢; exact Or.inr hmem

/-- Witness for `victory_check_exact`: with known species `"A"` and
`"B"`, the caught set `{"A","B"}` triggers the flag only by equalling the
full species set, and a grass spawn from the non-empty list lands in the
known set. -/
theorem victory_check_exact_witness :
    (insert "A" (insert "B" ∅) : Finset String)
        = all_species { grass := ["A"], water := ["B"], sand := [] } ∧
    spawn_name { grass := ["A"], water := ["B"], sand := [] } Biome.grass 5
        ∈ all_species { grass := ["A"], water := ["B"], sand := [] } :=
  have h := victory_check_exact { grass := ["A"], water := ["B"], sand := [] }
    (insert "A" (insert "B" ∅)) false
  ⟨h.2.1 (by decide) (by decide), h.2.2 Biome.grass (by decide) 5⟩

-- ------------------------------------------------------------------
-- Session-level battle teardown (src/main.py, main loop lines 509-511
-- and 540-546)
-- ------------------------------------------------------------------

/-- The world state touched by the main loop around a battle: the live
wild creatures (identified by distinct ids standing for the Python object
identities in `world.mons`), the bush list size and the respawn timer. -/
structure WorldSt where
  mons : List ℕ
  bush_count : ℕ
  respawn_t : ℚ
deriving DecidableEq, Repr

/-- The slice of a `Battle` object the main loop reads during teardown:
the id of `battle.wild`, the `active` flag and the cooldown. -/
structure BattleRef where
  wild : ℕ
  active : Bool
  cooldown : ℚ
deriving DecidableEq, Repr

/-- The session: the world plus the optional current battle
(`battle = None` when no encounter is active). -/
structure Session where
  world : WorldSt
  battle : Option BattleRef
deriving DecidableEq, Repr

/-- The ESC branch of the event handler (main.py lines 509-511):
`elif battle and battle.active: battle.active = False; battle = None` —
the battle is dropped directly, with no world access at all. -/
def esc_retreat (s : Session) : Session :=
  match s.battle with
  | some br => if br.active then { s with battle := none } else s
  | none => s

/-- The battle branch of the update step (main.py lines 540-546):
`battle.update(dt)` decays the cooldown
(`cooldown = max(0.0, cooldown - dt)`, line 305), and if the battle is no
longer active the wild creature is removed from `world.mons` and the
battle is dropped. -/
def battle_update_step (dt : ℚ) (s : Session) : Session :=
  match s.battle with
  | none => s
  | some br =>
    let br1 := { br with cooldown := max 0 (br.cooldown - dt) }
    if br1.active then { s with battle := some br1 }
    else
      { s with world := { s.world with mons := s.world.mons.erase br.wild },
               battle := none }

/-- C10: when the update step sees an ended battle (`active = False` —
which a successful capture, a wild-creature faint, and a last-member
faint each produce), the wild creature is removed from the live list and
the battle dropped, with no other world state touched; an ESC retreat
drops an active battle without running that removal, so the whole world
— the wild creature included — is left untouched. -/
theorem battle_end_teardown (s : Session) (br : BattleRef) (dt r : ℚ)
    (r1 r2 i : ℕ) (m : RosterMember) (b : BattleSt) :
    (s.battle = some br → br.active = false →
      (battle_update_step dt s).world.mons = s.world.mons.erase br.wild ∧
      (battle_update_step dt s).battle = none ∧
      (battle_update_step dt s).world.bush_count = s.world.bush_count ∧
      (battle_update_step dt s).world.respawn_t = s.world.respawn_t) ∧
    (s.battle = some br → br.active = true →
      (esc_retreat s).battle = none ∧
      (esc_retreat s).world = s.world) ∧
    (¬ 0 < b.cooldown → ¬ b.player.balls = 0 →
      r < capture_chance b.wild.hp b.wild.max_hp b.wild.level →
      (throw_ball r b).active = false) ∧
    (¬ 0 < b.cooldown → b.myIdx = some i → b.player.team.get? i = some m →
      b.wild.hp ≤ ((r1 + m.level / 3 : ℕ) : ℤ) →
      (attack_round r1 r2 b).active = false) ∧
    (¬ 0 < b.cooldown → b.myIdx = some i → b.player.team.get? i = some m →
      ((r1 + m.level / 3 : ℕ) : ℤ) < b.wild.hp →
      m.hp ≤ ((r2 + b.wild.level / 4 : ℕ) : ℤ) →
      (¬ ∃ j, ∃ hj : j < b.player.team.length, j ≠ i ∧
          0 < b.player.team[j].hp) →
      (attack_round r1 r2 b).active = false) := by
  refine ⟨?_, ?_, ?_, ?_, ?_⟩
  · intro h1 h2
    unfold battle_update_step
    rw [h1]
    simp only
    rw [if_neg (by simp [h2])]
    exact ⟨rfl, rfl, rfl, rfl⟩
  · intro h1 h2
    unfold esc_retreat
    rw [h1]
    simp only
    rw [if_pos h2]
    exact ⟨rfl, rfl⟩
  · intro hcd hb hr
    unfold throw_ball
    rw [if_neg hcd, if_neg hb]
    simp only
    rw [if_pos hr]
    split
    · rfl
    · rfl
  · intro hcd hidx hmem hfaint
    have hbind : (b.myIdx.bind fun k =>
        Option.map (fun x => (k, x)) (b.player.team.get? k)) = some (i, m) := by
      rw [hidx, Option.some_bind, hmem, Option.map_some']
    unfold attack_round
    rw [if_neg hcd]
    split
    · rename_i h
      rw [hbind] at h
      exact absurd h (by simp)
    · rename_i i' m' h
      rw [hbind] at h
      injection h with h2
      injection h2 with hA hB
      subst hA
      subst hB
      simp only
      rw [if_pos (by omega :
        (0 : ℤ) ⊔ (b.wild.hp - ((r1 + m.level / 3 : ℕ) : ℤ)) ≤ 0)]
  · intro hcd hidx hmem hsurv hmf hnex
    have hbind : (b.myIdx.bind fun k =>
        Option.map (fun x => (k, x)) (b.player.team.get? k)) = some (i, m) := by
      rw [hidx, Option.some_bind, hmem, Option.map_some']
    obtain ⟨hi, -⟩ := List.get?_eq_some.mp hmem
    unfold attack_round
    rw [if_neg hcd]
    split
    · rename_i h
      rw [hbind] at h
      exact absurd h (by simp)
    · rename_i i' m' h
      rw [hbind] at h
      injection h with h2
      injection h2 with hA hB
      subst hA
      subst hB
      simp only
      rw [if_neg (by omega :
        ¬ (0 : ℤ) ⊔ (b.wild.hp - ((r1 + m.level / 3 : ℕ) : ℤ)) ≤ 0)]
      rw [if_pos (by simp only; omega :
        ({ m with hp := max 0 (m.hp - ((r2 + b.wild.level / 4 : ℕ) : ℤ)) } :
          RosterMember).hp ≤ 0)]
      have hdead : ¬ 0 <
          ({ m with hp := max 0 (m.hp - ((r2 + b.wild.level / 4 : ℕ) : ℤ)) } :
            RosterMember).hp := by
        simp only; omega
      rw [if_pos ((filter_set_dead_isEmpty b.player.team i
        { m with hp := max 0 (m.hp - ((r2 + b.wild.level / 4 : ℕ) : ℤ)) }
        hi hdead).mpr hnex)]

/-- An ended battle (wild creature id 5) in a world of three wild
creatures. -/
def exSessionEnded : Session :=
  { world := { mons := [4, 5, 6], bush_count := 10, respawn_t := 2 },
    battle := some { wild := 5, active := false, cooldown := 0 } }

/-- The same session with the battle still active. -/
def exSessionActive : Session :=
  { world := { mons := [4, 5, 6], bush_count := 10, respawn_t := 2 },
    battle := some { wild := 5, active := true, cooldown := 0 } }

/-- A fight-state battle against a 2-hp wild creature, to exercise the
capture-success and wild-faint conclusions. -/
def exBattleLow : BattleSt :=
  { select_confirm (battle_init exPlayer1 exWild) with
    wild := { exWild with hp := 2 } }

/-- A fight-state battle whose only roster member has 1 hp, to exercise
the defeat conclusion. -/
def exBattleLast : BattleSt :=
  select_confirm (battle_init
    { apricorns := 0, balls := 3,
      team := [{ name := "A", level := 5, max_hp := 25, hp := 1 }],
      caught_species := ∅, active_index := 0 } exWild)

/-- Witness for `battle_end_teardown`: the ended battle removes creature
5 and only creature 5; the retreat keeps the world (creature 5 included);
a successful capture, a wild faint and a player defeat each deactivate
the battle. -/
theorem battle_end_teardown_witness :
    (battle_update_step (1/60) exSessionEnded).world.mons = [4, 6] ∧
    (battle_update_step (1/60) exSessionEnded).battle = none ∧
    (esc_retreat exSessionActive).battle = none ∧
    (esc_retreat exSessionActive).world = exSessionActive.world ∧
    (throw_ball (1/10) exBattleLow).active = false ∧
    (attack_round 2 1 exBattleLow).active = false ∧
    (attack_round 2 1 exBattleLast).active = false := by
  have h := battle_end_teardown exSessionEnded
    { wild := 5, active := false, cooldown := 0 } (1/60) (1/10)
    2 1 0 exMemberA exBattleLow
  have h2 := battle_end_teardown exSessionActive
    { wild := 5, active := true, cooldown := 0 } (1/60) (1/10)
    2 1 0 { name := "A", level := 5, max_hp := 25, hp := 1 } exBattleLast
  refine ⟨?_, (h.1 rfl rfl).2.1, (h2.2.1 rfl rfl).1, (h2.2.1 rfl rfl).2,
    ?_, ?_, ?_⟩
  · have := (h.1 rfl rfl).1
    rw [this]
    decide
  · exact h.2.2.1 (by decide) (by decide)
      (by norm_num [exBattleLow, select_confirm, battle_init, exPlayer1,
        exWild, mon_mk, capture_chance])
  · exact h.2.2.2.1 (by decide) rfl rfl (by decide)
  · exact h2.2.2.2.2 (by decide) rfl rfl (by decide) (by decide)
      (by rintro ⟨j, hj, hne, -⟩
          rw [show exBattleLast.player.team.length = 1 from rfl] at hj
          omega)

end Pixelmon
